import Mathlib

/-!
Shallow embedding of `src/pt_app.py` (StresStimulus report comparator).

The script parses uploaded HTML reports with BeautifulSoup, extracts a
summary, a transaction table and a top-errors table from each, and — when
more than one report contributes transactions — builds a combined
transaction table (outer join on transaction name), coerces its cells to
numbers, highlights cells above an SLA threshold and counts within/above
SLA cells for a pie chart.

The HTML/BeautifulSoup layer is modelled by `HtmlDoc`: each section the
script probes by div id is an `Option HtmlSection`; a section carries the
label → following-td-text pairs that `find(string=lbl).find_next("td")`
would resolve, and the rows of cell texts of its first table.  All the
extraction, aggregation and SLA logic is translated function by function
from the script.
-/

set_option autoImplicit false

namespace PtApp

/-- First-match association lookup on string-keyed pair lists (models a
dict / pandas index lookup, and `find(string=...)` label resolution). -/
def alookup {α : Type} : List (String × α) → String → Option α
  | [], _ => none
  | (k, v) :: rest, key => if k = key then some v else alookup rest key

/-- One div section of a report: `fields` holds the label → following-cell
text pairs that a successful `find(string=lbl).find_next("td").text.strip()`
chain yields (a label whose chain fails anywhere is simply absent), and
`table` is the rows of trimmed cell texts of the section's first table
(`none` when the section has no table). -/
structure HtmlSection where
  fields : List (String × String)
  table : Option (List (List String))
  deriving DecidableEq

/-- The five sections `pt_app.py` probes by div id: "Test Run
Information_div", "Overall Result_div", "Requests_div", "Transaction
details_div" and the case-insensitive "Top Errors" pattern.  A section the
document lacks is `none` (BeautifulSoup `find` returning `None`). -/
structure HtmlDoc where
  runInfo : Option HtmlSection
  overallResult : Option HtmlSection
  requests : Option HtmlSection
  transactionDetails : Option HtmlSection
  topErrors : Option HtmlSection
  deriving DecidableEq

/-- The record returned by `parse_stresstimulus_summary`. -/
structure ReportSummary where
  reportName : String
  startTime : String
  endTime : String
  statusVal : String
  maxUserLoad : String
  failedRequests : String
  deriving DecidableEq

/-- Embeds `parse_stresstimulus_summary` (pt_app.py lines 19-56).  All five
fields start as "N/A"; each guarded lookup replaces its field when the
section and the label chain are present.  Start time and end time share one
`try` block in the source, so a failing "Start time" chain leaves both at
"N/A", while a failing "End time" chain after a successful "Start time"
leaves only the end time at "N/A". -/
def parse_stresstimulus_summary (doc : HtmlDoc) (file_name : String) : ReportSummary :=
  let runPair :=
    match doc.runInfo with
    | none => ("N/A", "N/A")
    | some sec =>
      match alookup sec.fields "Start time" with
      | none => ("N/A", "N/A")
      | some st => (st, (alookup sec.fields "End time").getD "N/A")
  let stat :=
    match doc.overallResult with
    | none => "N/A"
    | some sec => (alookup sec.fields "Pass/Fail Status").getD "N/A"
  let maxLoad :=
    match doc.overallResult with
    | none => "N/A"
    | some sec => (alookup sec.fields "Max User Load").getD "N/A"
  let failedReq :=
    match doc.requests with
    | none => "N/A"
    | some sec => (alookup sec.fields "Failed Requests %").getD "N/A"
  { reportName := file_name
    startTime := runPair.1
    endTime := runPair.2
    statusVal := stat
    maxUserLoad := maxLoad
    failedRequests := failedReq }

/-- One row of the transaction table: name (`tds[0]`) and raw average-time
cell text (`tds[8]`). -/
structure TxnRecord where
  name : String
  avg : String
  deriving DecidableEq

/-- One iteration of the row loop of `parse_transaction_details` (lines
71-77): a row is kept only when it has strictly more than 8 cells. -/
def txnRowRecord (tds : List String) : Option TxnRecord :=
  if 8 < tds.length then some { name := tds.getD 0 "", avg := tds.getD 8 "" }
  else none

/-- Embeds `parse_transaction_details` (lines 61-78): missing section or
missing table yield an empty list; otherwise all rows after the header row
are processed, keeping those with more than 8 cells. -/
def parse_transaction_details (doc : HtmlDoc) : List TxnRecord :=
  match doc.transactionDetails with
  | none => []
  | some sec =>
    match sec.table with
    | none => []
    | some trs => (trs.drop 1).filterMap txnRowRecord

/-- One row of the error matrix, as built by `parse_top_errors`. -/
structure ErrorRecord where
  testcaseName : String
  tc : String
  requestId : String
  errorDescription : String
  deriving DecidableEq

/-- One iteration of the row loop of `parse_top_errors` (lines 93-101): a
row is kept only when it has at least 3 cells. -/
def errRowRecord (report_name : String) (tds : List String) : Option ErrorRecord :=
  if 3 ≤ tds.length then
    some { testcaseName := report_name
           tc := tds.getD 0 ""
           requestId := tds.getD 1 ""
           errorDescription := tds.getD 2 "" }
  else none

/-- Embeds `parse_top_errors` (lines 83-102): missing section or missing
table yield an empty list; otherwise all rows after the header row are
processed, keeping those with at least 3 cells. -/
def parse_top_errors (doc : HtmlDoc) (report_name : String) : List ErrorRecord :=
  match doc.topErrors with
  | none => []
  | some sec =>
    match sec.table with
    | none => []
    | some trs => (trs.drop 1).filterMap (errRowRecord report_name)

/-- Everything the per-file loop (lines 114-126) extracts from one file. -/
structure ParsedReport where
  summary : ReportSummary
  transactions : List TxnRecord
  errors : List ErrorRecord
  deriving DecidableEq

/-- One iteration of the per-file loop: each uploaded file is parsed on its
own, independently of its siblings. -/
def parseReport (file_name : String) (doc : HtmlDoc) : ParsedReport :=
  { summary := parse_stresstimulus_summary doc file_name
    transactions := parse_transaction_details doc
    errors := parse_top_errors doc file_name }

/-- The whole per-file loop over an uploaded batch. -/
def parseReports (files : List (String × HtmlDoc)) : List ParsedReport :=
  files.map (fun p => parseReport p.1 p.2)

/-- `df_txn.set_index("Transaction name")["Avg.(s)"]` (line 122): the
transaction table of one report as a name → raw average text series. -/
def txnSeries (doc : HtmlDoc) : List (String × String) :=
  (parse_transaction_details doc).map (fun r => (r.name, r.avg))

/-- `transactions_dict` as built by lines 120-122: one entry per uploaded
file whose transaction table is non-empty, keyed by file name. -/
def transactions_dict (files : List (String × HtmlDoc)) :
    List (String × List (String × String)) :=
  files.filterMap (fun p =>
    let t := txnSeries p.2
    if t.isEmpty then none else some (p.1, t))

/-- Keep the first occurrence of every string, dropping later duplicates
(`seen` accumulates the strings already emitted). -/
def dedupFirst (seen : List String) : List String → List String
  | [] => []
  | x :: xs => if x ∈ seen then dedupFirst seen xs else x :: dedupFirst (x :: seen) xs

/-- The row index of `pd.concat(transactions_dict, axis=1)`: the union of
the transaction names of all contributing reports. -/
def unionNames (dict : List (String × List (String × String))) : List String :=
  dedupFirst [] (dict.flatMap (fun e => e.2.map Prod.fst))

/-- `combined_df` before numeric coercion (lines 143-145): one row per
transaction name in the union, one column per entry of `transactions_dict`;
the outer join leaves `none` where a report lacks the transaction. -/
def mkCombined (dict : List (String × List (String × String))) :
    List (String × List (Option String)) :=
  (unionNames dict).map (fun txn => (txn, dict.map (fun e => alookup e.2 txn)))

/-- Positional cell access with a default (used to read one report's column
out of a combined row). -/
def nth {α : Type} (d : α) : List α → Nat → α
  | [], _ => d
  | x :: _, 0 => x
  | _ :: xs, n + 1 => nth d xs n

/-- The cell of the combined table at row key `txn` and column position
`i`; `none` both for an absent row and for a missing cell. -/
def tableCell (tbl : List (String × List (Option String))) (txn : String) (i : Nat) :
    Option String :=
  match alookup tbl txn with
  | none => none
  | some cells => nth none cells i

/-- Numeric value of a digit list, most significant digit first. -/
def digitsVal (cs : List Char) : Nat :=
  cs.foldl (fun a c => a * 10 + (c.toNat - 48)) 0

/-- Drop surrounding whitespace from a character list. -/
def trimChars (cs : List Char) : List Char :=
  ((cs.dropWhile Char.isWhitespace).reverse.dropWhile Char.isWhitespace).reverse

/-- Split a character list at every '.', like `splitOn "."`. -/
def splitOnDot : List Char → List (List Char)
  | [] => [[]]
  | c :: rest =>
    if c = '.' then [] :: splitOnDot rest
    else
      match splitOnDot rest with
      | [] => [[c]]
      | h :: t => (c :: h) :: t

/-- Models the element conversion of `pd.to_numeric(..., errors="coerce")`
(line 148): optionally signed decimal digits with an optional fractional
part parse to a rational; any other text fails to `none`. -/
def parseNumber (s : String) : Option ℚ :=
  let t := trimChars s.toList
  let sgn : ℚ := if t.take 1 = ['-'] then -1 else 1
  let body := if t.take 1 = ['-'] ∨ t.take 1 = ['+'] then t.drop 1 else t
  match splitOnDot body with
  | [ip] =>
    if decide (0 < ip.length) && ip.all Char.isDigit then
      some (sgn * (digitsVal ip : ℚ))
    else none
  | [ip, fp] =>
    if (decide (0 < ip.length) || decide (0 < fp.length)) && ip.all Char.isDigit
        && fp.all Char.isDigit then
      some (sgn * ((digitsVal ip : ℚ)
        + (digitsVal fp : ℚ) / ((10 : ℚ) ^ fp.length)))
    else none
  | _ => none

/-- Coercion of one combined-table cell: a join-missing cell stays missing,
a present cell is parsed, an unparseable text becomes missing. -/
def coerceCell (c : Option String) : Option ℚ :=
  c.bind parseNumber

/-- Coercion of a combined-table row, cell by cell (the source loops over
columns, which is the same elementwise map over the table). -/
def coerceRow (row : List (Option String)) : List (Option ℚ) :=
  row.map coerceCell

/-- `combined_df` after the numeric coercion loop (lines 147-148). -/
def combinedNumeric (dict : List (String × List (String × String))) :
    List (String × List (Option ℚ)) :=
  (mkCombined dict).map (fun r => (r.1, coerceRow r.2))

/-- The melt of the combined table (line 164): every cell of every report
column, missing cells included. -/
def meltValues (tbl : List (String × List (Option ℚ))) : List (Option ℚ) :=
  tbl.flatMap Prod.snd

/-- `highlight_sla` (lines 151-155): a cell is highlighted exactly when its
value compares strictly greater than the threshold; a missing cell never
compares greater (NaN comparisons are false), so it is not highlighted. -/
def highlight_sla (val : Option ℚ) (sla_value : ℚ) : Bool :=
  match val with
  | some v => decide (sla_value < v)
  | none => false

/-- The per-cell "Within SLA" flag (line 165): value at most the threshold;
a missing cell never compares, so its flag is false. -/
def withinSLACell (val : Option ℚ) (sla_value : ℚ) : Bool :=
  match val with
  | some v => decide (v ≤ sla_value)
  | none => false

/-- `within_sla` (line 167): the number of true "Within SLA" flags. -/
def withinCount (cells : List (Option ℚ)) (sla_value : ℚ) : Nat :=
  cells.countP (fun c => withinSLACell c sla_value)

/-- `above_sla` (line 168): the total number of melted cells minus the
within-SLA count. -/
def aboveCount (cells : List (Option ℚ)) (sla_value : ℚ) : Nat :=
  cells.length - withinCount cells sla_value

/-- The lower bound of the SLA threshold widget (line 139, `min_value=0.0`). -/
def sla_min_value : ℚ := 0

/-- The default of the SLA threshold widget (line 139, `value=1.0`). -/
def sla_default : ℚ := 1

/-- Whether the SLA threshold widget accepts a value: `st.number_input`
rejects anything below its `min_value`. -/
def sla_accepts (v : ℚ) : Bool :=
  decide (sla_min_value ≤ v)

/-- The comparison branch of the main block (lines 134-168): the combined
table and the SLA counts are produced only under the
`len(transactions_dict) > 1` guard. -/
def comparisonOutput (files : List (String × HtmlDoc)) (sla_value : ℚ) :
    Option (List (String × List (Option ℚ)) × Nat × Nat) :=
  let dict := transactions_dict files
  if 1 < dict.length then
    let tbl := combinedNumeric dict
    let cells := meltValues tbl
    some (tbl, withinCount cells sla_value, aboveCount cells sla_value)
  else none

/-- The three aggregate collections the main loop builds from a batch:
summary rows, `transactions_dict`, and the concatenated error rows. -/
def aggregate (files : List (String × HtmlDoc)) :
    List ReportSummary × List (String × List (String × String)) × List ErrorRecord :=
  (files.map (fun p => parse_stresstimulus_summary p.2 p.1),
   transactions_dict files,
   files.flatMap (fun p => parse_top_errors p.2 p.1))

/-- The average-time value `transactions_dict` holds for report `rep` and
transaction `txn` (`none` when the report or the transaction is absent). -/
def dictCell (dict : List (String × List (String × String))) (rep txn : String) :
    Option String :=
  (alookup dict rep).bind (fun s => alookup s txn)

/-- A document whose only content is a transaction-details table with the
given rows. -/
def txnDocOf (trs : List (List String)) : HtmlDoc :=
  { runInfo := none, overallResult := none, requests := none,
    transactionDetails := some { fields := [], table := some trs },
    topErrors := none }

/-- A document whose only content is a top-errors table with the given
rows. -/
def errDocOf (trs : List (List String)) : HtmlDoc :=
  { runInfo := none, overallResult := none, requests := none,
    transactionDetails := none,
    topErrors := some { fields := [], table := some trs } }

/-- A document with every section absent. -/
def emptyDoc : HtmlDoc :=
  { runInfo := none, overallResult := none, requests := none,
    transactionDetails := none, topErrors := none }

/-- Default used for positional access into a file batch. -/
def dummyFile : String × HtmlDoc := ("", emptyDoc)

/-- Report A of the spec scenario: only the transaction "Login" with
average 0.9. -/
def docA : HtmlDoc :=
  txnDocOf [["name", "c1", "c2", "c3", "c4", "c5", "c6", "c7", "avg"],
            ["Login", "", "", "", "", "", "", "", "0.9"]]

/-- Report B of the spec scenario: "Login" with average 1.4 and "Checkout"
with average 2.1. -/
def docB : HtmlDoc :=
  txnDocOf [["name", "c1", "c2", "c3", "c4", "c5", "c6", "c7", "avg"],
            ["Login", "", "", "", "", "", "", "", "1.4"],
            ["Checkout", "", "", "", "", "", "", "", "2.1"]]

/-- The two-report batch of the spec scenario. -/
def exampleFiles : List (String × HtmlDoc) :=
  [("A.html", docA), ("B.html", docB)]

/-! ### Supporting lemmas -/

theorem alookup_map_self {α : Type} (f : String → α) (l : List String) (key : String) :
    alookup (l.map (fun t => (t, f t))) key = if key ∈ l then some (f key) else none := by
  induction l with
  | nil => rfl
  | cons x xs ih =>
    by_cases hx : x = key
    · subst hx
      simp [alookup]
    · simp only [List.map_cons, alookup, hx, if_false, ih, List.mem_cons]
      have : ¬ key = x := fun hk => hx hk.symm
      simp [this]

theorem alookup_eq_none {α : Type} (l : List (String × α)) (key : String) :
    alookup l key = none ↔ key ∉ l.map Prod.fst := by
  induction l with
  | nil => simp [alookup]
  | cons e rest ih =>
    by_cases he : e.1 = key
    · simp [alookup, he]
    · have : ¬ key = e.1 := fun hk => he hk.symm
      simp [alookup, he, ih, this]

theorem mem_dedupFirst (x : String) (l : List String) (seen : List String) :
    x ∈ dedupFirst seen l ↔ x ∈ l ∧ x ∉ seen := by
  induction l generalizing seen with
  | nil => simp [dedupFirst]
  | cons y ys ih =>
    by_cases hy : y ∈ seen
    · simp only [dedupFirst, hy, if_true, ih, List.mem_cons]
      constructor
      · exact fun ⟨h1, h2⟩ => ⟨Or.inr h1, h2⟩
      · rintro ⟨h1 | h1, h2⟩
        · exact absurd hy (h1 ▸ h2)
        · exact ⟨h1, h2⟩
    · simp only [dedupFirst, hy, if_false, List.mem_cons, ih]
      by_cases hxy : x = y
      · subst hxy
        simp [hy]
      · simp [hxy]

theorem mem_unionNames (dict : List (String × List (String × String))) (txn : String) :
    txn ∈ unionNames dict ↔ ∃ e ∈ dict, txn ∈ e.2.map Prod.fst := by
  simp [unionNames, mem_dedupFirst, List.mem_flatMap]

theorem nth_map_of_lt {α β : Type} (f : α → β) (l : List α) (i : Nat)
    (da : α) (db : β) (hi : i < l.length) :
    nth db (l.map f) i = f (nth da l i) := by
  induction l generalizing i with
  | nil => simp at hi
  | cons x xs ih =>
    cases i with
    | zero => rfl
    | succ n => exact ih n (Nat.lt_of_succ_lt_succ hi)

theorem nth_coerceRow (row : List (Option String)) (i : Nat) :
    nth none (coerceRow row) i = coerceCell (nth none row i) := by
  induction row generalizing i with
  | nil => rfl
  | cons x xs ih =>
    cases i with
    | zero => rfl
    | succ n => exact ih n

theorem withinCount_mono (cells : List (Option ℚ)) {t1 t2 : ℚ} (h : t1 ≤ t2) :
    withinCount cells t1 ≤ withinCount cells t2 := by
  apply List.countP_mono_left
  intro c _ hc
  cases c with
  | none => simp [withinSLACell] at hc
  | some v =>
    simp only [withinSLACell, decide_eq_true_eq] at hc ⊢
    exact le_trans hc h

/-! ### Claims -/

/-- C1 (counterexample): on a combined table whose single melted cell is
the missing marker, the within-SLA count is 0 but the above-SLA count is 1,
so the missing cell does contribute to the above-SLA count and to the
compliance denominator, refuting the claim that it contributes to
neither. -/
theorem c1_counterexample :
    withinCount [(none : Option ℚ)] 1 = 0 ∧
    aboveCount [(none : Option ℚ)] 1 = 1 ∧
    ¬ (withinCount [(none : Option ℚ)] 1 + aboveCount [(none : Option ℚ)] 1 = 0) := by
  decide

/-- C1 (amended): a missing cell contributes nothing to the within-SLA
count, but it is counted in the above-SLA count, because the code computes
`above_sla = len(all_values) - within_sla` over all melted cells; the
compliance denominator `within + above` therefore counts every cell of the
melted table, missing cells included. -/
theorem c1_missing_counted_above (cells : List (Option ℚ)) (t : ℚ) :
    withinCount (none :: cells) t = withinCount cells t ∧
    aboveCount (none :: cells) t = aboveCount cells t + 1 ∧
    withinCount cells t + aboveCount cells t = cells.length := by
  have hle : withinCount cells t ≤ cells.length := List.countP_le_length _
  have hw : withinCount (none :: cells) t = withinCount cells t := by
    simp [withinCount, List.countP_cons, withinSLACell]
  refine ⟨hw, ?_, ?_⟩
  · simp only [aboveCount, hw, List.length_cons]
    omega
  · simp only [aboveCount]
    omega

/-- C3 (counterexample): the claim says negative thresholds are accepted,
but the threshold widget is created with `min_value=0.0`, so the negative
threshold -1 is rejected. -/
theorem c3_counterexample : sla_accepts (-1) = false := by
  decide

/-- C3 (amended): the SLA threshold is a single numeric value per
invocation, defaulting to 1.0; zero is accepted, but any negative value is
rejected by the widget's `min_value=0.0` lower bound, so the degenerate
everything-above-SLA case is not reachable through a negative threshold. -/
theorem c3_threshold_bounds (v : ℚ) (hv : v < 0) :
    sla_default = 1 ∧ sla_accepts 0 = true ∧ sla_accepts v = false ∧
    sla_accepts sla_default = true := by
  refine ⟨rfl, by decide, ?_, by decide⟩
  simp only [sla_accepts, sla_min_value, decide_eq_false_iff_not, not_le]
  exact hv

/-- C3 witness: the amended statement at the concrete threshold -1. -/
theorem c3_threshold_bounds_witness :
    (-1 : ℚ) < 0 ∧
    (sla_default = 1 ∧ sla_accepts 0 = true ∧ sla_accepts (-1) = false ∧
      sla_accepts sla_default = true) :=
  ⟨by norm_num, c3_threshold_bounds (-1) (by norm_num)⟩

/-- C6: a combined-table cell whose text does not parse as a number is
coerced to the missing marker — it is never an exception (coercion is a
total function) and never zero — and coercion acts cell by cell: the
coerced value at any position of a row is a function of the original cell
at that position only. -/
theorem c6_coercion_failures_missing (s : String) (row : List (Option String)) (i : Nat)
    (h : parseNumber s = none) :
    coerceCell (some s) = none ∧
    coerceCell (some s) ≠ some 0 ∧
    nth none (coerceRow row) i = coerceCell (nth none row i) := by
  have hc : coerceCell (some s) = none := by simp [coerceCell, h]
  exact ⟨hc, by simp [hc], nth_coerceRow row i⟩

/-- C6 witness: the cell text "abc" is uncoercible; in the row
`[some "abc", some "2.5"]` it becomes the missing marker while the sibling
cell's coercion is untouched. -/
theorem c6_coercion_failures_missing_witness :
    parseNumber "abc" = none ∧
    (coerceCell (some "abc") = none ∧
     coerceCell (some "abc") ≠ some 0 ∧
     nth none (coerceRow [some "abc", some "2.5"]) 1
       = coerceCell (nth none [some "abc", some "2.5"] 1)) :=
  ⟨by decide, c6_coercion_failures_missing "abc" [some "abc", some "2.5"] 1 (by decide)⟩

/-- C7: a numeric cell is highlighted as an SLA breach exactly when its
value is strictly greater than the threshold; a value equal to the
threshold is not a breach and its within-SLA flag is true; and on numeric
cells the highlight flag is the boolean negation of the within-SLA flag
used by the compliance counts, so the two agree on the strict
comparison. -/
theorem c7_strict_breach (v t : ℚ) :
    (highlight_sla (some v) t = true ↔ t < v) ∧
    highlight_sla (some t) t = false ∧
    withinSLACell (some t) t = true ∧
    highlight_sla (some v) t = !(withinSLACell (some v) t) := by
  refine ⟨by simp [highlight_sla], by simp [highlight_sla], by simp [withinSLACell], ?_⟩
  by_cases h : v ≤ t
  · simp [highlight_sla, withinSLACell, h, not_lt.mpr h]
  · simp [highlight_sla, withinSLACell, h, lt_of_not_le h]

/-- C8: for a fixed melted cell list, raising the SLA threshold never
increases the above-threshold count, because the within-SLA count is
monotone in the threshold and `above = total - within`. -/
theorem c8_above_antitone (cells : List (Option ℚ)) (t1 t2 : ℚ) (h : t1 ≤ t2) :
    aboveCount cells t2 ≤ aboveCount cells t1 :=
  Nat.sub_le_sub_left (withinCount_mono cells h) cells.length

/-- C8 witness: on the cells `[some 0.5, some 1.5, none]`, raising the
threshold from 1 to 2 does not increase the above-SLA count. -/
theorem c8_above_antitone_witness :
    (1 : ℚ) ≤ 2 ∧
    aboveCount [some (1/2), some (3/2), none] 2 ≤ aboveCount [some (1/2), some (3/2), none] 1 :=
  ⟨by norm_num, c8_above_antitone [some (1/2), some (3/2), none] 1 2 (by norm_num)⟩

/-- C10: the comparison branch runs exactly when strictly more than one
uploaded report contributed a non-empty transaction table
(`len(transactions_dict) > 1`); in particular a single-file upload never
produces a combined table or SLA statistics. -/
theorem c10_comparison_guard (files : List (String × HtmlDoc)) (t : ℚ)
    (f : String × HtmlDoc) :
    ((comparisonOutput files t).isSome
        = decide (1 < (transactions_dict files).length)) ∧
    comparisonOutput [f] t = none := by
  constructor
  · by_cases h : 1 < (transactions_dict files).length
    · simp [comparisonOutput, h]
    · simp [comparisonOutput, h]
  · have hlen : (transactions_dict [f]).length ≤ 1 := by
      simp only [transactions_dict, List.filterMap_cons, List.filterMap_nil]
      rcases (txnSeries f.2).isEmpty with _ | _ <;> simp
    have : ¬ 1 < (transactions_dict [f]).length := by omega
    simp [comparisonOutput, this]

/-- C4: an absent section never aborts parsing: with the run-information
div absent both time fields fall back to "N/A" and every other field is
computed as before; likewise for the overall-result div (status and max
user load), the requests div (failed-requests percentage), the
transaction-details div (empty transaction list) and the top-errors div
(empty error list).  Sections are independent of each other, and the
per-file loop parses every file of a batch on its own, so a file missing
sections never stops its siblings from being parsed. -/
theorem c4_absent_sections_degrade (doc : HtmlDoc) (file_name : String)
    (rest : List (String × HtmlDoc)) :
    parse_stresstimulus_summary { doc with runInfo := none } file_name
        = { parse_stresstimulus_summary doc file_name with
              startTime := "N/A", endTime := "N/A" } ∧
    parse_stresstimulus_summary { doc with overallResult := none } file_name
        = { parse_stresstimulus_summary doc file_name with
              statusVal := "N/A", maxUserLoad := "N/A" } ∧
    parse_stresstimulus_summary { doc with requests := none } file_name
        = { parse_stresstimulus_summary doc file_name with failedRequests := "N/A" } ∧
    parse_transaction_details { doc with transactionDetails := none } = [] ∧
    parse_top_errors { doc with topErrors := none } file_name = [] ∧
    parse_transaction_details { doc with runInfo := none, overallResult := none,
                                         requests := none, topErrors := none }
        = parse_transaction_details doc ∧
    parse_top_errors { doc with runInfo := none, overallResult := none,
                                requests := none, transactionDetails := none } file_name
        = parse_top_errors doc file_name ∧
    parseReports ((file_name, doc) :: rest)
        = parseReport file_name doc :: parseReports rest ∧
    (parseReports rest).length = rest.length := by
  refine ⟨rfl, rfl, rfl, rfl, rfl, rfl, rfl, rfl, ?_⟩
  simp [parseReports]

/-- C5: a transaction row with at most 8 cells, or an error row with fewer
than 3 cells, is skipped without affecting the rest of the extraction:
deleting the malformed row from the table leaves the parse result
unchanged, and a well-formed sibling row in the same table still produces
its record. -/
theorem c5_short_rows_skipped (hdr bad good badE goodE : List String)
    (pre post preE postE : List (List String)) (report_name : String)
    (hbad : bad.length ≤ 8) (hgood : 8 < good.length)
    (hbadE : badE.length < 3) (hgoodE : 3 ≤ goodE.length) :
    parse_transaction_details (txnDocOf (hdr :: (pre ++ bad :: post)))
        = parse_transaction_details (txnDocOf (hdr :: (pre ++ post))) ∧
    TxnRecord.mk (good.getD 0 "") (good.getD 8 "")
        ∈ parse_transaction_details (txnDocOf (hdr :: (pre ++ bad :: good :: post))) ∧
    parse_top_errors (errDocOf (hdr :: (preE ++ badE :: postE))) report_name
        = parse_top_errors (errDocOf (hdr :: (preE ++ postE))) report_name ∧
    ErrorRecord.mk report_name (goodE.getD 0 "") (goodE.getD 1 "") (goodE.getD 2 "")
        ∈ parse_top_errors (errDocOf (hdr :: (preE ++ badE :: goodE :: postE))) report_name := by
  have hbad' : txnRowRecord bad = none := by
    simp [txnRowRecord, Nat.not_lt.mpr hbad]
  have hgood' : txnRowRecord good = some ⟨good.getD 0 "", good.getD 8 ""⟩ := by
    simp [txnRowRecord, hgood]
  have hbadE' : errRowRecord report_name badE = none := by
    simp [errRowRecord, Nat.not_le.mpr hbadE]
  have hgoodE' : errRowRecord report_name goodE
      = some ⟨report_name, goodE.getD 0 "", goodE.getD 1 "", goodE.getD 2 ""⟩ := by
    simp [errRowRecord, hgoodE]
  have htxn : ∀ rows, parse_transaction_details (txnDocOf (hdr :: rows))
      = rows.filterMap txnRowRecord := fun _ => rfl
  have herr : ∀ rows, parse_top_errors (errDocOf (hdr :: rows)) report_name
      = rows.filterMap (errRowRecord report_name) := fun _ => rfl
  refine ⟨?_, ?_, ?_, ?_⟩
  · rw [htxn, htxn, List.filterMap_append, List.filterMap_append,
      List.filterMap_cons, hbad']
  · rw [htxn]
    exact List.mem_filterMap.mpr ⟨good, by simp, hgood'⟩
  · rw [herr, herr, List.filterMap_append, List.filterMap_append,
      List.filterMap_cons, hbadE']
  · rw [herr]
    exact List.mem_filterMap.mpr ⟨goodE, by simp, hgoodE'⟩

/-- C5 witness: in a transaction table the 2-cell row `["Login", "x"]` is
dropped while the 9-cell sibling survives, and in an error table the
2-cell row is dropped while the 3-cell sibling survives. -/
theorem c5_short_rows_skipped_witness :
    (["Login", "x"] : List String).length ≤ 8 ∧
    8 < (["Login", "", "", "", "", "", "", "", "0.9"] : List String).length ∧
    (["tc1", "r1"] : List String).length < 3 ∧
    3 ≤ (["tc1", "r1", "boom"] : List String).length ∧
    (parse_transaction_details
        (txnDocOf (["h"] :: ([] ++ ["Login", "x"] :: [])))
      = parse_transaction_details (txnDocOf (["h"] :: ([] ++ []))) ∧
    TxnRecord.mk ((["Login", "", "", "", "", "", "", "", "0.9"] : List String).getD 0 "")
        ((["Login", "", "", "", "", "", "", "", "0.9"] : List String).getD 8 "")
      ∈ parse_transaction_details
        (txnDocOf (["h"] :: ([] ++ ["Login", "x"]
            :: ["Login", "", "", "", "", "", "", "", "0.9"] :: []))) ∧
    parse_top_errors (errDocOf (["h"] :: ([] ++ ["tc1", "r1"] :: []))) "r"
      = parse_top_errors (errDocOf (["h"] :: ([] ++ []))) "r" ∧
    ErrorRecord.mk "r" ((["tc1", "r1", "boom"] : List String).getD 0 "")
        ((["tc1", "r1", "boom"] : List String).getD 1 "")
        ((["tc1", "r1", "boom"] : List String).getD 2 "")
      ∈ parse_top_errors
        (errDocOf (["h"] :: ([] ++ ["tc1", "r1"] :: ["tc1", "r1", "boom"] :: []))) "r") :=
  ⟨by decide, by decide, by decide, by decide,
    c5_short_rows_skipped ["h"] ["Login", "x"] ["Login", "", "", "", "", "", "", "", "0.9"]
      ["tc1", "r1"] ["tc1", "r1", "boom"] [] [] [] [] "r"
      (by decide) (by decide) (by decide) (by decide)⟩

theorem tableCell_mkCombined (dict : List (String × List (String × String)))
    (txn : String) (htxn : txn ∈ unionNames dict) (i : Nat) :
    tableCell (mkCombined dict) txn i
      = nth none (dict.map (fun e => alookup e.2 txn)) i := by
  unfold tableCell mkCombined
  rw [alookup_map_self, if_pos htxn]

theorem transactions_dict_eq_filter_map (files : List (String × HtmlDoc)) :
    transactions_dict files
      = (files.filter fun p => !(txnSeries p.2).isEmpty).map
          (fun p => (p.1, txnSeries p.2)) := by
  induction files with
  | nil => rfl
  | cons f fs ih =>
    by_cases hne : txnSeries f.2 = []
    · have hf : (txnSeries f.2).isEmpty = true := List.isEmpty_iff.mpr hne
      simpa [transactions_dict, List.filterMap_cons, List.filter_cons, hne, hf] using ih
    · have hf : (txnSeries f.2).isEmpty = false := by
        rcases h' : (txnSeries f.2).isEmpty with _ | _
        · rfl
        · exact absurd (List.isEmpty_iff.mp h') hne
      simpa [transactions_dict, List.filterMap_cons, List.filter_cons, hne, hf] using ih

/-- C2 (counterexample): in the batch of three parsed reports E, A, B where
E's transaction table is empty, the combined table has columns for A and B
only — report E gets no column at all, rather than a column of missing
markers, so the table does not have one column per report. -/
theorem c2_counterexample :
    (transactions_dict
        [("E.html", emptyDoc), ("A.html", docA), ("B.html", docB)]).map Prod.fst
      = ["A.html", "B.html"] ∧
    "E.html" ∉ (transactions_dict
        [("E.html", emptyDoc), ("A.html", docA), ("B.html", docB)]).map Prod.fst := by
  decide

/-- C2 (amended): the combined table is keyed by transaction name and has
one column per report whose transaction table is non-empty (reports
without transactions are dropped before the join, they do not get a column
of missing markers); its row keys are exactly the union of the batch's
transaction names, and the cell at row `txn` and contributing-report
position `i` is exactly that report's average-time entry for `txn` — the
missing marker precisely when that report lacks the transaction (outer
join). -/
theorem c2_outer_join (files : List (String × HtmlDoc)) (txn : String) (i : Nat)
    (htxn : txn ∈ unionNames (transactions_dict files))
    (hi : i < (files.filter fun p => !(txnSeries p.2).isEmpty).length) :
    transactions_dict files
      = (files.filter fun p => !(txnSeries p.2).isEmpty).map
          (fun p => (p.1, txnSeries p.2)) ∧
    (∀ t, t ∈ unionNames (transactions_dict files) ↔
      ∃ p ∈ files, t ∈ (txnSeries p.2).map Prod.fst) ∧
    tableCell (mkCombined (transactions_dict files)) txn i
      = alookup
          (txnSeries (nth dummyFile (files.filter fun p => !(txnSeries p.2).isEmpty) i).2)
          txn ∧
    (tableCell (mkCombined (transactions_dict files)) txn i = none ↔
      txn ∉ (txnSeries
          (nth dummyFile (files.filter fun p => !(txnSeries p.2).isEmpty) i).2).map
            Prod.fst) := by
  have hdict := transactions_dict_eq_filter_map files
  have hcell : tableCell (mkCombined (transactions_dict files)) txn i
      = alookup
          (txnSeries (nth dummyFile (files.filter fun p => !(txnSeries p.2).isEmpty) i).2)
          txn := by
    rw [tableCell_mkCombined _ _ htxn, hdict, List.map_map,
      nth_map_of_lt _ _ i dummyFile none hi]
    rfl
  refine ⟨hdict, ?_, hcell, ?_⟩
  · intro t
    rw [mem_unionNames, hdict]
    constructor
    · rintro ⟨e, he, hmem⟩
      rcases List.mem_map.mp he with ⟨p, hp, rfl⟩
      exact ⟨p, List.mem_of_mem_filter hp, hmem⟩
    · rintro ⟨p, hp, hmem⟩
      refine ⟨(p.1, txnSeries p.2), List.mem_map.mpr ⟨p, ?_, rfl⟩, hmem⟩
      refine List.mem_filter.mpr ⟨hp, ?_⟩
      rcases hser : txnSeries p.2 with _ | ⟨q, qs⟩
      · rw [hser] at hmem
        simp at hmem
      · simp
  · rw [hcell, alookup_eq_none]

/-- C2 witness: the spec scenario.  Report A has `{"Login": 0.9}`, report B
has `{"Login": 1.4, "Checkout": 2.1}`; the amended theorem applies at row
"Checkout" and contributing column 0 (report A), and concretely the
combined table has rows "Login" and "Checkout", the "Checkout" row holds
the missing marker in report A's column, and every present cell keeps its
report's value. -/
theorem c2_outer_join_witness :
    "Checkout" ∈ unionNames (transactions_dict exampleFiles) ∧
    0 < (exampleFiles.filter fun p => !(txnSeries p.2).isEmpty).length ∧
    (transactions_dict exampleFiles
      = (exampleFiles.filter fun p => !(txnSeries p.2).isEmpty).map
          (fun p => (p.1, txnSeries p.2)) ∧
     (∀ t, t ∈ unionNames (transactions_dict exampleFiles) ↔
       ∃ p ∈ exampleFiles, t ∈ (txnSeries p.2).map Prod.fst) ∧
     tableCell (mkCombined (transactions_dict exampleFiles)) "Checkout" 0
       = alookup
           (txnSeries
             (nth dummyFile (exampleFiles.filter fun p => !(txnSeries p.2).isEmpty) 0).2)
           "Checkout" ∧
     (tableCell (mkCombined (transactions_dict exampleFiles)) "Checkout" 0 = none ↔
       "Checkout" ∉ (txnSeries
           (nth dummyFile (exampleFiles.filter fun p => !(txnSeries p.2).isEmpty) 0).2).map
             Prod.fst)) ∧
    unionNames (transactions_dict exampleFiles) = ["Login", "Checkout"] ∧
    tableCell (mkCombined (transactions_dict exampleFiles)) "Checkout" 0 = none ∧
    tableCell (mkCombined (transactions_dict exampleFiles)) "Checkout" 1 = some "2.1" ∧
    tableCell (mkCombined (transactions_dict exampleFiles)) "Login" 0 = some "0.9" ∧
    tableCell (mkCombined (transactions_dict exampleFiles)) "Login" 1 = some "1.4" :=
  ⟨by decide, by decide, c2_outer_join exampleFiles "Checkout" 0 (by decide) (by decide),
    by decide, by decide, by decide, by decide, by decide⟩

/-- C9: aggregating two parsed reports with distinct names in either order
gives the same result up to row/column ordering: the summary rows are a
permutation of each other, the combined-table column keys are a permutation
of each other, every (report, transaction) cell of `transactions_dict`
holds the same value, the row-key union is the same set, and the
concatenated error rows are a permutation of each other. -/
theorem c9_order_independent (A B : String × HtmlDoc) (h : A.1 ≠ B.1) :
    ((aggregate [A, B]).1).Perm ((aggregate [B, A]).1) ∧
    (((aggregate [A, B]).2.1).map Prod.fst).Perm
      (((aggregate [B, A]).2.1).map Prod.fst) ∧
    (∀ rep txn, dictCell ((aggregate [A, B]).2.1) rep txn
        = dictCell ((aggregate [B, A]).2.1) rep txn) ∧
    (∀ txn, txn ∈ unionNames ((aggregate [A, B]).2.1) ↔
        txn ∈ unionNames ((aggregate [B, A]).2.1)) ∧
    ((aggregate [A, B]).2.2).Perm ((aggregate [B, A]).2.2) := by
  have hsum : ((aggregate [A, B]).1).Perm ((aggregate [B, A]).1) := by
    simp only [aggregate, List.map_cons, List.map_nil]
    exact List.Perm.swap _ _ []
  have herr : ((aggregate [A, B]).2.2).Perm ((aggregate [B, A]).2.2) := by
    simp only [aggregate, List.flatMap_cons, List.flatMap_nil, List.append_nil]
    exact List.perm_append_comm
  have hdictPerm : ∀ rep txn,
      dictCell ((aggregate [A, B]).2.1) rep txn
        = dictCell ((aggregate [B, A]).2.1) rep txn := by
    intro rep txn
    simp only [aggregate, transactions_dict, List.filterMap_cons, List.filterMap_nil]
    cases hA : (txnSeries A.2).isEmpty <;> cases hB : (txnSeries B.2).isEmpty <;>
      simp only [dictCell, alookup] <;>
      by_cases h1 : A.1 = rep <;> by_cases h2 : B.1 = rep <;>
      first
        | exact absurd (h1.trans h2.symm) h
        | simp [h1, h2]
  refine ⟨hsum, ?_, hdictPerm, ?_, herr⟩
  · simp only [aggregate, transactions_dict, List.filterMap_cons, List.filterMap_nil]
    cases hA : (txnSeries A.2).isEmpty <;> cases hB : (txnSeries B.2).isEmpty <;> simp
    exact List.Perm.swap _ _ []
  · intro txn
    simp only [aggregate, transactions_dict, List.filterMap_cons, List.filterMap_nil]
    cases hA : (txnSeries A.2).isEmpty <;> cases hB : (txnSeries B.2).isEmpty <;>
      simp [mem_unionNames] <;> tauto

/-- C9 witness: the two scenario reports, whose names "A.html" and
"B.html" differ, aggregated in both orders. -/
theorem c9_order_independent_witness :
    ("A.html", docA).1 ≠ ("B.html", docB).1 ∧
    (((aggregate [("A.html", docA), ("B.html", docB)]).1).Perm
        ((aggregate [("B.html", docB), ("A.html", docA)]).1) ∧
     (((aggregate [("A.html", docA), ("B.html", docB)]).2.1).map Prod.fst).Perm
        (((aggregate [("B.html", docB), ("A.html", docA)]).2.1).map Prod.fst) ∧
     (∀ rep txn, dictCell ((aggregate [("A.html", docA), ("B.html", docB)]).2.1) rep txn
        = dictCell ((aggregate [("B.html", docB), ("A.html", docA)]).2.1) rep txn) ∧
     (∀ txn, txn ∈ unionNames ((aggregate [("A.html", docA), ("B.html", docB)]).2.1) ↔
        txn ∈ unionNames ((aggregate [("B.html", docB), ("A.html", docA)]).2.1)) ∧
     ((aggregate [("A.html", docA), ("B.html", docB)]).2.2).Perm
        ((aggregate [("B.html", docB), ("A.html", docA)]).2.2)) :=
  ⟨by decide, c9_order_independent ("A.html", docA) ("B.html", docB) (by decide)⟩

end PtApp
